import Mathlib

/-!
Verification of the CineSync services against their specification.

Shallow embedding of:
- `src/movie_service/src/service.py` (`MovieService.search_movies`) and
  `src/movie_service/src/main.py` (`get_movie_details` handler);
- `src/user_service/src/service.py` (`UserService.create_user`,
  `add_to_favorites`) and `src/user_service/src/main.py` (`register` handler);
- `src/user_service/src/events.py` (`EventPublisher.connect`,
  `publish_user_created`);
- `src/notification_service/src/main.py` (`process_message`).

Async I/O is modelled by explicit state passing; the upstream TMDB provider,
the movie-service HTTP peer and the broker are modelled as response values
passed in. Machine floats in catalog entries never matter to any property
proved here, so catalog items are a type parameter `α`.
-/

namespace CineSync

/-! ## Movie service: cache model

`MovieService.search_movies` keys a Redis cache by
`f"movie_search:{query.lower().strip()}"` and stores JSON lists with
`ex=300` (expiry 300 seconds after the write).  The cache is modelled as an
association list from key to stored value plus its absolute expiry time;
`redis.get` returns the value only while `now` is before the expiry.
`upstreamCalls` counts calls to the TMDB `/search/movie` endpoint. -/

structure CacheEntry (α : Type) where
  value : List α
  expiresAt : Nat
deriving Repr, DecidableEq

structure MState (α : Type) where
  cache : List (String × CacheEntry α)
  upstreamCalls : Nat
deriving Repr, DecidableEq

/-- The cache key `f"movie_search:{query.lower().strip()}"` (service.py line 51). -/
def cacheKey (query : String) : String :=
  "movie_search:" ++ (query.toLower.trim)

/-- Models `await self.redis.get(cache_key)`: a live (unexpired) entry is returned,
an absent or expired key yields `none` (Redis deletes on expiry). -/
def cacheGet {α : Type} (cache : List (String × CacheEntry α)) (key : String)
    (now : Nat) : Option (List α) :=
  match cache.lookup key with
  | some e => if now < e.expiresAt then some e.value else none
  | none => none

/-- Models `await self.redis.set(cache_key, json.dumps(data), ex=300)`: Redis SET
overwrites any previous value under the key. -/
def cacheSet {α : Type} (cache : List (String × CacheEntry α)) (key : String)
    (e : CacheEntry α) : List (String × CacheEntry α) :=
  (key, e) :: cache

/-- Outcome of the TMDB `/search/movie` call: a transport or HTTP-status
error (`httpx.HTTPError`, including `raise_for_status`), or a 2xx JSON body
whose `"results"` field may be absent (`response.json().get("results", [])`). -/
inductive UpstreamSearchResponse (α : Type) where
  | transportError
  | success (results : Option (List α))
deriving Repr, DecidableEq

/-- The body of `MovieService.search_movies` (service.py lines 31-83).  Returns the
result list or the `HTTPException` status `502`, together with the new
state.  `upstream` gives the TMDB response for the raw query; `now` the
current time in seconds. -/
def search_movies {α : Type} (upstream : String → UpstreamSearchResponse α)
    (now : Nat) (query : String) (s : MState α) :
    Except Nat (List α) × MState α :=
  let key := cacheKey query
  match cacheGet s.cache key now with
  | some v => (Except.ok v, s)
  | none =>
      let s1 : MState α := { s with upstreamCalls := s.upstreamCalls + 1 }
      match upstream query with
      | UpstreamSearchResponse.transportError => (Except.error 502, s1)
      | UpstreamSearchResponse.success results =>
          let data := results.getD []
          if data.isEmpty then (Except.ok data, s1)
          else (Except.ok data,
                { s1 with cache := cacheSet s1.cache key ⟨data, now + 300⟩ })

/-! ## Movie service: lookup by id -/

/-- Outcome of the TMDB movie-detail call for a given id. -/
inductive UpstreamDetailResponse (α : Type) where
  | transportError
  | notFound
  | found (entry : α)
deriving Repr, DecidableEq

/-- Modelled from the spec: `MovieService.get_movie_by_id` is invoked by the
`get_movie_details` handler (main.py line 99) but its definition is absent
from `src/movie_service/src/service.py`.  Per spec §4.1 `getById` is a
direct passthrough to the upstream provider with no caching layer: it
returns the entry on success, `None` when the upstream reports not-found
(the handler turns `None` into 404), and raises the 502 `HTTPException` on
transport error.  The movie-service state is returned untouched: this path
performs no cache read or write. -/
def get_movie_by_id {α : Type} (upstream : UpstreamDetailResponse α)
    (s : MState α) : Except Nat (Option α) × MState α :=
  match upstream with
  | UpstreamDetailResponse.transportError => (Except.error 502, s)
  | UpstreamDetailResponse.notFound => (Except.ok none, s)
  | UpstreamDetailResponse.found e => (Except.ok (some e), s)

/-- The `get_movie_details` handler (main.py lines 81-102): calls
`get_movie_by_id` and raises `HTTPException(404)` when it returns `None`. -/
def get_movie_details {α : Type} (upstream : UpstreamDetailResponse α)
    (s : MState α) : Except Nat α × MState α :=
  match get_movie_by_id upstream s with
  | (Except.error code, s') => (Except.error code, s')
  | (Except.ok none, s') => (Except.error 404, s')
  | (Except.ok (some m), s') => (Except.ok m, s')

/-! ## User service: registration and favorites -/

/-- A `User` row (models.py lines 7-40); `id`/`created_at` are DB-generated
and irrelevant to the claims, so the row carries the fields `create_user`
sets. -/
structure UserRow where
  email : String
  hashed_password : String
  is_active : Bool
deriving Repr, DecidableEq

/-- A `Favorite` row (models.py lines 43-78), the fields `add_to_favorites`
sets; DB-generated `id`/`added_at` are omitted. -/
structure FavoriteRow where
  user_id : Int
  movie_id : Int
  movie_title : String
  movie_poster_path : Option String
deriving Repr, DecidableEq

/-- Wire event published to the broker (events.py lines 48-52): JSON body
with fields `"event"`, `"user_id"`, `"email"`. -/
structure EventBody where
  event : String
  user_id : Int
  email : String
deriving Repr, DecidableEq

/-- The method `EventPublisher.publish_user_created` (events.py lines 40-64) builds
this body and publishes it to routing key `"user_created_queue"`. -/
def publish_user_created_body (user_id : Int) (email : String) : EventBody :=
  { event := "UserCreated", user_id := user_id, email := email }

/-- The user-service mutable world visible to the registration flow: the
`users` table and the sequence of events placed on the broker. -/
structure UState where
  users : List UserRow
  published : List EventBody
deriving Repr, DecidableEq

/-- The body of `UserService.create_user` (service.py lines 29-63): rejects a taken
email with `HTTPException(400)`, otherwise inserts the new user with the
hashed password and `is_active=True`. -/
def create_user (hash : String → String) (email password : String)
    (s : UState) : Except Nat UserRow × UState :=
  if s.users.any (fun u => u.email == email) then
    (Except.error 400, s)
  else
    let u : UserRow := { email := email, hashed_password := hash password,
                         is_active := true }
    (Except.ok u, { s with users := s.users ++ [u] })

/-- The `register` handler (main.py lines 45-64): constructs `UserService(db)`
and returns `await service.create_user(user_in)` — nothing else happens on
this path; in particular no call into `EventPublisher`. -/
def register (hash : String → String) (email password : String)
    (s : UState) : Except Nat UserRow × UState :=
  create_user hash email password s

/-- Number of favorite rows for a (user, movie) pair. -/
def countPair (db : List FavoriteRow) (u m : Int) : Nat :=
  (db.filter (fun f => f.user_id == u && f.movie_id == m)).length

/-- The storage layer's `UniqueConstraint("user_id", "movie_id")`
(models.py lines 76-78): a commit of a row whose pair already exists fails
with `IntegrityError`, otherwise appends the row. -/
def dbInsert (db : List FavoriteRow) (f : FavoriteRow) :
    Except Unit (List FavoriteRow) :=
  if db.any (fun g => g.user_id == f.user_id && g.movie_id == f.movie_id) then
    Except.error ()
  else
    Except.ok (db ++ [f])

/-- The movie-service response to
`GET {MOVIE_SERVICE_URL}/movies/{movie_id}` as seen by
`add_to_favorites`: status 404, a transport/HTTP-status error
(`httpx.HTTPError`, including `raise_for_status` on non-2xx), or a 2xx JSON
body with optional `"title"` and `"poster_path"` fields. -/
inductive MovieServiceResponse where
  | status404
  | httpError
  | ok (title : Option String) (poster_path : Option String)
deriving Repr, DecidableEq

/-- The body of `UserService.add_to_favorites` (service.py lines 88-149): checks the
movie exists via the movie service (404 → `HTTPException(404)`, transport
error → `HTTPException(502)`), then builds the `Favorite` row
(`movie_data.get("title", "Unknown")`, `movie_data.get("poster_path")`) and
commits it; an `IntegrityError` from the uniqueness constraint is rolled
back and surfaced as `HTTPException(400)`.  There is no duplicate
pre-check before the insert. -/
def add_to_favorites (resp : MovieServiceResponse) (user_id movie_id : Int)
    (db : List FavoriteRow) : Except Nat FavoriteRow × List FavoriteRow :=
  match resp with
  | MovieServiceResponse.status404 => (Except.error 404, db)
  | MovieServiceResponse.httpError => (Except.error 502, db)
  | MovieServiceResponse.ok title poster =>
      let favorite : FavoriteRow :=
        { user_id := user_id, movie_id := movie_id,
          movie_title := title.getD "Unknown", movie_poster_path := poster }
      match dbInsert db favorite with
      | Except.error _ => (Except.error 400, db)
      | Except.ok db' => (Except.ok favorite, db')

/-! ## Notification service: consumer -/

/-- A dequeued message after `json.loads(message.body.decode())`:
`malformed` when decoding raises, otherwise the (possibly absent) `"event"`,
`"user_id"`, `"email"` fields as `body.get` sees them. -/
inductive QMessage where
  | malformed
  | parsed (event : Option String) (user_id : Option Int) (email : Option String)
deriving Repr, DecidableEq

/-- Observable outcome of handling one message. -/
inductive ConsumerEffect where
  | welcomeEmail (user_id : Option Int) (email : Option String)
  | unknownWarning (event : Option String)
  | errorLogged
deriving Repr, DecidableEq

/-- The consumer callback `process_message` (notification_service main.py lines 14-36).  The
whole body runs inside `async with message.process()` which acknowledges on
normal exit; the inner `try/except Exception` catches deserialization and
handler failures and logs them, so every branch exits the context normally.
`handlerOk` models whether the recognized-event side effect (the logging
block) itself raises — a raise is caught by the same `except`.  Returns the
observable effect and whether the message was acknowledged. -/
def process_message (handlerOk : Bool) (m : QMessage) :
    ConsumerEffect × Bool :=
  match m with
  | QMessage.malformed => (ConsumerEffect.errorLogged, true)
  | QMessage.parsed event uid email =>
      if event == some "UserCreated" then
        if handlerOk then (ConsumerEffect.welcomeEmail uid email, true)
        else (ConsumerEffect.errorLogged, true)
      else (ConsumerEffect.unknownWarning event, true)

/-- JSON round trip from a published body onto the consumer's `body.get`
view: every field the publisher serializes is present. -/
def toQMessage (b : EventBody) : QMessage :=
  QMessage.parsed (some b.event) (some b.user_id) (some b.email)

/-! ## Event publisher: connection retry loop -/

/-- Result of `EventPublisher.connect` (events.py lines 16-32):
`connected k ds` means the `k`-th attempt succeeded after sleeping the
delays `ds`; `failed k ds` means the final attempt raised and the exception
propagates; `fellThrough` is the dead `while` exit (retries exhausted
without a raise), unreachable from the initial `retries = 5`. -/
inductive ConnectResult where
  | connected (attempts : Nat) (delays : List Nat)
  | failed (attempts : Nat) (delays : List Nat)
  | fellThrough (attempts : Nat) (delays : List Nat)
deriving Repr, DecidableEq

/-- The `while retries > 0` loop of `connect`.  `attempt i` tells whether
the `(i+1)`-th `aio_pika.connect_robust` call succeeds; on failure
`retries` is decremented, the exception re-raised when it hits 0, and
otherwise `asyncio.sleep(5)` runs before the next iteration.  `delays`
accumulates the sleeps in order. -/
def connect_loop (attempt : Nat → Bool) :
    Nat → Nat → List Nat → ConnectResult
  | 0, i, delays => ConnectResult.fellThrough i delays
  | retries + 1, i, delays =>
      if attempt i then ConnectResult.connected (i + 1) delays
      else if retries == 0 then ConnectResult.failed (i + 1) delays
      else connect_loop attempt retries (i + 1) (delays ++ [5])

/-- The entry point `EventPublisher.connect`: the loop entered with `retries = 5`. -/
def connect (attempt : Nat → Bool) : ConnectResult :=
  connect_loop attempt 5 0 []

/-- Runs `n` repeated identical searches, the `(i+1)`-th issued at time
`times i`; returns the movie-service state after the last one. -/
def searchN {α : Type} (upstream : String → UpstreamSearchResponse α)
    (times : Nat → Nat) (q : String) (s : MState α) : Nat → MState α
  | 0 => s
  | n + 1 => (search_movies upstream (times n) q (searchN upstream times q s n)).2

/-- A search that misses the cache and gets an empty (or absent)
`"results"` list back returns `[]`, bumps the upstream call count and
leaves the cache untouched. -/
lemma search_empty_step {α : Type} (upstream : String → UpstreamSearchResponse α)
    (q : String) (results : Option (List α)) (t : Nat) (s : MState α)
    (hup : upstream q = UpstreamSearchResponse.success results)
    (hempty : results.getD [] = [])
    (h : s.cache.lookup (cacheKey q) = none) :
    search_movies upstream t q s
      = (Except.ok [], { s with upstreamCalls := s.upstreamCalls + 1 }) := by
  have hget : cacheGet s.cache (cacheKey q) t = none := by
    simp [cacheGet, h]
  simp [search_movies, hget, hup, hempty]

/-! ## Claims -/

/-- C1: the lookup-by-id path returns the catalog entry on upstream
success, fails with 404 when the upstream reports not-found, fails with 502
on transport error, and leaves the movie-service state (in particular the
cache) untouched in every case. -/
theorem getById_passthrough {α : Type} (s : MState α) :
    (∀ e : α, get_movie_details (UpstreamDetailResponse.found e) s = (Except.ok e, s)) ∧
    get_movie_details (UpstreamDetailResponse.notFound (α := α)) s = (Except.error 404, s) ∧
    get_movie_details (UpstreamDetailResponse.transportError (α := α)) s = (Except.error 502, s) :=
  ⟨fun _ => rfl, rfl, rfl⟩

/-- C2: the `register` handler never publishes anything — the published
event list is unchanged by every registration, including a successful
concrete one (fresh email on an empty store). -/
theorem register_publishes_no_event :
    (∀ (hash : String → String) (email password : String) (s : UState),
        ((register hash email password s).2).published = s.published) ∧
    (register (fun p => p) "a@b.com" "pw" ⟨[], []⟩).1
        = Except.ok { email := "a@b.com", hashed_password := "pw", is_active := true } ∧
    ((register (fun p => p) "a@b.com" "pw" ⟨[], []⟩).2).published = [] := by
  refine ⟨fun hash email password s => ?_, rfl, rfl⟩
  unfold register create_user
  split <;> rfl

/-- C3 counterexample: the published registration event for user 7 /
a@b.com does not carry the event name `"UserRegistered"`, and a message
that does carry `"UserRegistered"` is treated by the consumer as an unknown
event (warning, no notification), though still acknowledged. -/
theorem wire_event_name_mismatch :
    (publish_user_created_body 7 "a@b.com").event ≠ "UserRegistered" ∧
    process_message true (QMessage.parsed (some "UserRegistered") (some 7) (some "a@b.com"))
      = (ConsumerEffect.unknownWarning (some "UserRegistered"), true) := by
  refine ⟨?_, ?_⟩ <;> decide

/-- C3 amended: the registration event placed on the queue is
`{"event": "UserCreated", "user_id": <int>, "email": <string>}`, and when
the consumer receives a message with event name `"UserCreated"` it sends
the welcome notification referencing that user id and email and
acknowledges the message. -/
theorem user_created_event_roundtrip (uid : Int) (email : String) :
    publish_user_created_body uid email
      = { event := "UserCreated", user_id := uid, email := email } ∧
    process_message true (toQMessage (publish_user_created_body uid email))
      = (ConsumerEffect.welcomeEmail (some uid) (some email), true) := by
  refine ⟨rfl, ?_⟩
  simp [process_message, toQMessage, publish_user_created_body]

/-- C7: when the movie service reports 404 for the movie id,
`add_to_favorites` fails with 404 and the favorites store is unchanged. -/
theorem add_favorite_movie_not_found (u m : Int) (db : List FavoriteRow) :
    add_to_favorites MovieServiceResponse.status404 u m db = (Except.error 404, db) :=
  rfl

/-- C8: every consumed message is acknowledged; a message with an
unrecognized event name yields only a warning (no notification) and is
acknowledged; a message whose body fails to deserialize, or whose handler
raises, is logged and still acknowledged. -/
theorem consumer_ack_discipline (handlerOk : Bool) (m : QMessage) :
    (process_message handlerOk m).2 = true ∧
    (∀ event uid email, m = QMessage.parsed event uid email →
        event ≠ some "UserCreated" →
        process_message handlerOk m = (ConsumerEffect.unknownWarning event, true)) ∧
    process_message handlerOk QMessage.malformed = (ConsumerEffect.errorLogged, true) ∧
    (∀ uid email, process_message false (QMessage.parsed (some "UserCreated") uid email)
        = (ConsumerEffect.errorLogged, true)) := by
  refine ⟨?_, ?_, rfl, fun uid email => by simp [process_message]⟩
  · cases m with
    | malformed => rfl
    | parsed event uid email =>
        simp only [process_message]
        split <;> first | rfl | split <;> rfl
  · rintro event uid email rfl hne
    simp [process_message, hne]

/-- C8 witness: concrete instances — an unknown-event message is
acknowledged with only a warning, a malformed body is logged and
acknowledged, and a raising handler is logged and acknowledged. -/
theorem consumer_ack_discipline_witness :
    (process_message true (QMessage.parsed (some "Other") (some 1) (some "e"))).2 = true ∧
    process_message true (QMessage.parsed (some "Other") (some 1) (some "e"))
      = (ConsumerEffect.unknownWarning (some "Other"), true) ∧
    process_message true QMessage.malformed = (ConsumerEffect.errorLogged, true) ∧
    process_message false (QMessage.parsed (some "UserCreated") (some 1) (some "e"))
      = (ConsumerEffect.errorLogged, true) :=
  ⟨(consumer_ack_discipline true (QMessage.parsed (some "Other") (some 1) (some "e"))).1,
   (consumer_ack_discipline true (QMessage.parsed (some "Other") (some 1) (some "e"))).2.1
     (some "Other") (some 1) (some "e") rfl (by decide),
   (consumer_ack_discipline true QMessage.malformed).2.2.1,
   (consumer_ack_discipline false QMessage.malformed).2.2.2 (some 1) (some "e")⟩

/-- C4: after a first search that misses the cache and gets a non-empty
result from upstream, any identical search strictly before the 300-second
expiry is answered from the cache with the same data and leaves the state
— in particular the upstream call count — unchanged, whatever the upstream
would now answer. -/
theorem cache_hit_within_ttl {α : Type}
    (upstream1 upstream2 : String → UpstreamSearchResponse α)
    (q : String) (t1 t2 : Nat) (s : MState α) (data : List α)
    (hmiss : cacheGet s.cache (cacheKey q) t1 = none)
    (hup : upstream1 q = UpstreamSearchResponse.success (some data))
    (hne : data ≠ [])
    (ht : t2 < t1 + 300) :
    (search_movies upstream1 t1 q s).1 = Except.ok data ∧
    search_movies upstream2 t2 q (search_movies upstream1 t1 q s).2
      = (Except.ok data, (search_movies upstream1 t1 q s).2) := by
  have hne' : data.isEmpty = false := by
    cases data with
    | nil => exact absurd rfl hne
    | cons a l => rfl
  have h1 : search_movies upstream1 t1 q s
      = (Except.ok data,
         { cache := (cacheKey q, ⟨data, t1 + 300⟩) :: s.cache,
           upstreamCalls := s.upstreamCalls + 1 }) := by
    simp [search_movies, hmiss, hup, hne', cacheSet]
  have h2 : cacheGet ((cacheKey q, (⟨data, t1 + 300⟩ : CacheEntry α)) :: s.cache)
      (cacheKey q) t2 = some data := by
    simp [cacheGet, List.lookup, ht]
  rw [h1]
  exact ⟨rfl, by simp [search_movies, h2]⟩

/-- C4 witness: first search for "Q" at time 0 against an upstream
returning `[1]`; re-search at time 100 (even against a now-failing
upstream) is served from the cache, state unchanged. -/
theorem cache_hit_within_ttl_witness :
    (search_movies (fun _ => UpstreamSearchResponse.success (some [1])) 0 "Q"
        (⟨[], 0⟩ : MState Nat)).1 = Except.ok [1] ∧
    search_movies (fun _ => UpstreamSearchResponse.transportError) 100 "Q"
        (search_movies (fun _ => UpstreamSearchResponse.success (some [1])) 0 "Q"
          (⟨[], 0⟩ : MState Nat)).2
      = (Except.ok [1],
         (search_movies (fun _ => UpstreamSearchResponse.success (some [1])) 0 "Q"
           (⟨[], 0⟩ : MState Nat)).2) :=
  cache_hit_within_ttl (fun _ => UpstreamSearchResponse.success (some [1]))
    (fun _ => UpstreamSearchResponse.transportError) "Q" 0 100 ⟨[], 0⟩ [1]
    rfl rfl (by decide) (by decide)

/-- C5: with no cache entry under the search key, a search whose upstream
result is the empty list returns `[]` and writes nothing (the whole state
changes only by the upstream call count), and `n` repeated identical
searches each invoke upstream again: the call count grows by exactly `n`
while the cache never changes. -/
theorem empty_result_never_cached {α : Type}
    (upstream : String → UpstreamSearchResponse α) (times : Nat → Nat)
    (q : String) (s : MState α)
    (hnokey : s.cache.lookup (cacheKey q) = none)
    (hup : upstream q = UpstreamSearchResponse.success (some [])) :
    (∀ t, search_movies upstream t q s
        = (Except.ok [], { s with upstreamCalls := s.upstreamCalls + 1 })) ∧
    ∀ n, (searchN upstream times q s n).cache = s.cache ∧
         (searchN upstream times q s n).upstreamCalls = s.upstreamCalls + n := by
  refine ⟨fun t => search_empty_step upstream q (some []) t s hup rfl hnokey, ?_⟩
  intro n
  induction n with
  | zero => exact ⟨rfl, rfl⟩
  | succ k ih =>
      have hk : (searchN upstream times q s k).cache.lookup (cacheKey q) = none := by
        rw [ih.1]; exact hnokey
      have hstep := search_empty_step upstream q (some []) (times k)
        (searchN upstream times q s k) hup rfl hk
      constructor
      · show (search_movies upstream (times k) q (searchN upstream times q s k)).2.cache = s.cache
        rw [hstep]
        exact ih.1
      · show (search_movies upstream (times k) q (searchN upstream times q s k)).2.upstreamCalls
            = s.upstreamCalls + (k + 1)
        rw [hstep]
        show (searchN upstream times q s k).upstreamCalls + 1 = s.upstreamCalls + (k + 1)
        rw [ih.2, Nat.add_assoc]

/-- C5 witness: three repeated searches for "Q" against an upstream that
keeps answering with an empty result list, from an empty cache: each one
returns `[]` without caching, and three repeats make three upstream calls. -/
theorem empty_result_never_cached_witness :
    search_movies (fun _ => UpstreamSearchResponse.success (some ([] : List Nat))) 17 "Q"
        (⟨[], 0⟩ : MState Nat)
      = (Except.ok [], { cache := [], upstreamCalls := 1 }) ∧
    (searchN (fun _ => UpstreamSearchResponse.success (some [])) (fun n => n) "Q"
        (⟨[], 0⟩ : MState Nat) 3).cache = [] ∧
    (searchN (fun _ => UpstreamSearchResponse.success (some [])) (fun n => n) "Q"
        (⟨[], 0⟩ : MState Nat) 3).upstreamCalls = 3 :=
  ⟨(empty_result_never_cached (fun _ => UpstreamSearchResponse.success (some []))
      (fun n => n) "Q" ⟨[], 0⟩ rfl rfl).1 17,
   ((empty_result_never_cached (fun _ => UpstreamSearchResponse.success (some []))
      (fun n => n) "Q" ⟨[], 0⟩ rfl rfl).2 3).1,
   ((empty_result_never_cached (fun _ => UpstreamSearchResponse.success (some []))
      (fun n => n) "Q" ⟨[], 0⟩ rfl rfl).2 3).2⟩

/-- C10: a search that misses the cache and gets a 2xx upstream response
whose JSON body has no `"results"` field returns the empty list (no error)
and leaves the cache untouched, only counting the upstream call. -/
theorem missing_results_field_returns_empty {α : Type}
    (upstream : String → UpstreamSearchResponse α) (t : Nat) (q : String)
    (s : MState α)
    (hnokey : s.cache.lookup (cacheKey q) = none)
    (hup : upstream q = UpstreamSearchResponse.success none) :
    search_movies upstream t q s
      = (Except.ok [], { s with upstreamCalls := s.upstreamCalls + 1 }) :=
  search_empty_step upstream q none t s hup rfl hnokey

/-- C10 witness: search for "Q" at time 3 from an empty cache against an
upstream 2xx response with no `"results"` field. -/
theorem missing_results_field_returns_empty_witness :
    search_movies (fun _ => UpstreamSearchResponse.success (none : Option (List Nat))) 3 "Q"
        (⟨[], 5⟩ : MState Nat)
      = (Except.ok [], { cache := [], upstreamCalls := 6 }) :=
  missing_results_field_returns_empty
    (fun _ => UpstreamSearchResponse.success none) 3 "Q" ⟨[], 5⟩ rfl rfl

lemma countPair_pos_iff (db : List FavoriteRow) (u m : Int) :
    0 < countPair db u m ↔
      db.any (fun g => g.user_id == u && g.movie_id == m) = true := by
  simp only [countPair, List.length_pos, ne_eq, List.filter_eq_nil_iff, not_forall,
    List.any_eq_true]
  constructor
  · rintro ⟨g, hg, hp⟩
    exact ⟨g, hg, by simpa using hp⟩
  · rintro ⟨g, hg, hp⟩
    exact ⟨g, hg, by simpa using hp⟩

lemma countPair_append (db1 db2 : List FavoriteRow) (u m : Int) :
    countPair (db1 ++ db2) u m = countPair db1 u m + countPair db2 u m := by
  simp [countPair, List.filter_append]

/-- C6: `add_to_favorites` preserves the at-most-one-record-per-(user,
movie) invariant in every case, and a duplicate insert (the pair already
stored, movie service answering 2xx) fails with 400 and leaves the store
unchanged with exactly one record for the pair.  The duplicate is detected
only by `dbInsert` (the storage-layer uniqueness constraint): the
definition of `add_to_favorites` performs no duplicate lookup before the
insert. -/
theorem favorite_pair_at_most_once (resp : MovieServiceResponse) (u m : Int)
    (db : List FavoriteRow) (hinv : ∀ u' m', countPair db u' m' ≤ 1) :
    (∀ u' m', countPair (add_to_favorites resp u m db).2 u' m' ≤ 1) ∧
    (∀ title poster, resp = MovieServiceResponse.ok title poster →
        1 ≤ countPair db u m →
        add_to_favorites resp u m db = (Except.error 400, db) ∧
          countPair db u m = 1) := by
  constructor
  · intro u' m'
    cases resp with
    | status404 => exact hinv u' m'
    | httpError => exact hinv u' m'
    | ok title poster =>
        simp only [add_to_favorites, dbInsert]
        by_cases hdup :
            db.any (fun g => g.user_id == u && g.movie_id == m) = true
        · simp only [hdup, if_true]
          exact hinv u' m'
        · rw [if_neg hdup]
          rw [countPair_append]
          by_cases hpair : u' = u ∧ m' = m
          · obtain ⟨hu, hm⟩ := hpair
            subst hu; subst hm
            have h0 : countPair db u' m' = 0 := by
              by_contra hne0
              exact hdup ((countPair_pos_iff db u' m').mp (Nat.pos_of_ne_zero hne0))
            rw [h0]
            simp [countPair, List.filter]
          · have hfalse : (u == u' && m == m') = false := by
              rw [Bool.eq_false_iff]
              intro htrue
              rw [Bool.and_eq_true] at htrue
              simp only [beq_iff_eq] at htrue
              exact hpair ⟨htrue.1.symm, htrue.2.symm⟩
            have h1 : countPair
                [{ user_id := u, movie_id := m, movie_title := title.getD "Unknown",
                   movie_poster_path := poster }] u' m' = 0 := by
              simp [countPair, List.filter, hfalse]
            rw [h1]
            simpa using hinv u' m'
  · rintro title poster rfl hge
    have hdup : db.any (fun g => g.user_id == u && g.movie_id == m) = true :=
      (countPair_pos_iff db u m).mp hge
    refine ⟨?_, Nat.le_antisymm (hinv u m) hge⟩
    simp [add_to_favorites, dbInsert, hdup]

/-- C6 witness: with a store already holding the pair (1, 2), a second
insert for (1, 2) through a 2xx movie-service answer fails with 400 and
leaves that single record in place. -/
theorem favorite_pair_at_most_once_witness :
    countPair (add_to_favorites (MovieServiceResponse.ok (some "T") none) 1 2
        [⟨1, 2, "T", none⟩]).2 1 2 ≤ 1 ∧
    add_to_favorites (MovieServiceResponse.ok (some "T") none) 1 2 [⟨1, 2, "T", none⟩]
      = (Except.error 400, [⟨1, 2, "T", none⟩]) ∧
    countPair [⟨1, 2, "T", none⟩] 1 2 = 1 := by
  have h := favorite_pair_at_most_once (MovieServiceResponse.ok (some "T") none) 1 2
    [⟨1, 2, "T", none⟩]
    (fun u' m' => le_trans (List.length_filter_le _ _) (by decide))
  exact ⟨h.1 1 2, (h.2 (some "T") none rfl (by decide)).1,
    (h.2 (some "T") none rfl (by decide)).2⟩

/-- Number of connection attempts a `ConnectResult` records. -/
def ConnectResult.attempts : ConnectResult → Nat
  | ConnectResult.connected k _ => k
  | ConnectResult.failed k _ => k
  | ConnectResult.fellThrough k _ => k

lemma connect_loop_attempts_le (attempt : Nat → Bool) :
    ∀ retries i ds, (connect_loop attempt retries i ds).attempts ≤ i + retries := by
  intro retries
  induction retries with
  | zero => intro i ds; simp [connect_loop, ConnectResult.attempts]
  | succ r ih =>
      intro i ds
      simp only [connect_loop]
      by_cases h : attempt i = true
      · simp [h, ConnectResult.attempts]
      · rw [if_neg h]
        by_cases hr : r = 0
        · subst hr
          simp [ConnectResult.attempts]
        · rw [if_neg (by simpa using hr)]
          calc (connect_loop attempt r (i + 1) (ds ++ [5])).attempts
              ≤ (i + 1) + r := ih (i + 1) (ds ++ [5])
            _ = i + (r + 1) := by omega

lemma connect_loop_not_fellThrough (attempt : Nat → Bool) :
    ∀ retries i ds, 0 < retries →
      ∀ k ds', connect_loop attempt retries i ds ≠ ConnectResult.fellThrough k ds' := by
  intro retries
  induction retries with
  | zero => intro i ds h; omega
  | succ r ih =>
      intro i ds _ k ds'
      simp only [connect_loop]
      by_cases h : attempt i = true
      · simp [h]
      · rw [if_neg h]
        by_cases hr : r = 0
        · subst hr; simp
        · rw [if_neg (by simpa using hr)]
          exact ih (i + 1) (ds ++ [5]) (Nat.pos_of_ne_zero hr) k ds'

lemma connect_loop_first_success (attempt : Nat → Bool) :
    ∀ retries i ds k, k < retries → (∀ j, j < k → attempt (i + j) = false) →
      attempt (i + k) = true →
      connect_loop attempt retries i ds
        = ConnectResult.connected (i + k + 1) (ds ++ List.replicate k 5) := by
  intro retries
  induction retries with
  | zero => intro i ds k hk; omega
  | succ r ih =>
      intro i ds k hk hfail hsucc
      cases k with
      | zero =>
          simp only [connect_loop]
          rw [if_pos (by simpa using hsucc)]
          simp
      | succ k' =>
          have h0 : attempt i = false := by simpa using hfail 0 (Nat.succ_pos k')
          have hr : r ≠ 0 := by omega
          simp only [connect_loop]
          rw [if_neg (by simp [h0]), if_neg (by simpa using hr)]
          have := ih (i + 1) (ds ++ [5]) k' (by omega)
            (fun j hj => by
              have := hfail (j + 1) (by omega)
              simpa [Nat.add_assoc, Nat.add_comm 1 j] using this)
            (by
              have : i + 1 + k' = i + (k' + 1) := by omega
              rw [this]; exact hsucc)
          rw [this]
          have harith : i + 1 + k' + 1 = i + (k' + 1) + 1 := by omega
          rw [harith, List.append_assoc]
          have hrep : [5] ++ List.replicate k' 5 = List.replicate (k' + 1) 5 := by
            simp [List.replicate_succ]
          rw [hrep]

lemma connect_loop_all_fail (attempt : Nat → Bool) :
    ∀ retries i ds, 0 < retries → (∀ j, j < retries → attempt (i + j) = false) →
      connect_loop attempt retries i ds
        = ConnectResult.failed (i + retries) (ds ++ List.replicate (retries - 1) 5) := by
  intro retries
  induction retries with
  | zero => intro i ds h; omega
  | succ r ih =>
      intro i ds _ hfail
      have h0 : attempt i = false := by simpa using hfail 0 (Nat.succ_pos r)
      simp only [connect_loop]
      rw [if_neg (by simp [h0])]
      cases r with
      | zero => simp
      | succ r' =>
          rw [if_neg (by simp)]
          have := ih (i + 1) (ds ++ [5]) (Nat.succ_pos r')
            (fun j hj => by
              have := hfail (j + 1) (by omega)
              simpa [Nat.add_assoc, Nat.add_comm 1 j] using this)
          rw [this]
          have harith : i + 1 + (r' + 1) = i + (r' + 1 + 1) := by omega
          rw [harith, List.append_assoc]
          have hrep : [5] ++ List.replicate (r' + 1 - 1) 5
              = List.replicate (r' + 1 + 1 - 1) 5 := by
            simp [List.replicate_succ]
          rw [hrep]

/-- C9: `EventPublisher.connect` makes at most 5 connection attempts and
its loop always terminates by connecting or raising (never by falling
through); it returns on the first successful attempt, having slept a fixed
5 seconds between consecutive attempts; and when all 5 attempts fail it
propagates the failure, having slept 4 times 5 seconds in between. -/
theorem connect_retry_policy (attempt : Nat → Bool) :
    ConnectResult.attempts (connect attempt) ≤ 5 ∧
    (∀ k ds, connect attempt ≠ ConnectResult.fellThrough k ds) ∧
    (∀ k, k < 5 → (∀ i, i < k → attempt i = false) → attempt k = true →
        connect attempt = ConnectResult.connected (k + 1) (List.replicate k 5)) ∧
    ((∀ i, i < 5 → attempt i = false) →
        connect attempt = ConnectResult.failed 5 (List.replicate 4 5)) := by
  refine ⟨?_, ?_, ?_, ?_⟩
  · simpa using connect_loop_attempts_le attempt 5 0 []
  · exact fun k ds => connect_loop_not_fellThrough attempt 5 0 [] (by omega) k ds
  · intro k hk hfail hsucc
    have := connect_loop_first_success attempt 5 0 [] k hk
      (fun j hj => by simpa using hfail j hj) (by simpa using hsucc)
    simpa using this
  · intro hfail
    have := connect_loop_all_fail attempt 5 0 [] (by omega)
      (fun j hj => by simpa using hfail j hj)
    simpa using this

/-- C9 witness: an attempt sequence succeeding on the third try connects
after 3 attempts with two 5-second sleeps; one that always fails exhausts
the 5 attempts, sleeps 4 times 5 seconds, and propagates the failure. -/
theorem connect_retry_policy_witness :
    ConnectResult.attempts (connect (fun i => i == 2)) ≤ 5 ∧
    connect (fun i => i == 2) = ConnectResult.connected 3 (List.replicate 2 5) ∧
    connect (fun _ => false) = ConnectResult.failed 5 (List.replicate 4 5) :=
  ⟨(connect_retry_policy (fun i => i == 2)).1,
   (connect_retry_policy (fun i => i == 2)).2.2.1 2 (by decide) (by decide) (by decide),
   (connect_retry_policy (fun _ => false)).2.2.2 (fun i _ => rfl)⟩

end CineSync
